import Mathlib

/-!
Shallow embedding of the session countdown / synchronization component of the
ChikuAI desktop application (`src/main.ts`, class `ChikuDesktopApp`).

Conventions of the embedding:

* Machine time is modelled as `Int` epoch milliseconds.  JavaScript's
  `Math.floor(x / 1000)` on a difference of timestamps is `Int` division `/`
  (Euclidean division), which agrees with floor division for the positive
  divisors 1000 and 60 used by the code.
* JavaScript's `%` agrees with Euclidean `%` on the non-negative operands the
  code produces (`elapsedSeconds % 30` is only consulted together with
  `elapsedSeconds > 0`, and `remainingSeconds % 60` is applied to a
  `Math.max(0, _)` result).
* The persisted store value under the key `cachedRemainingMinutes` is either
  absent, a number, or some non-numeric value; `Number(v) || 0` coerces the
  absent and non-numeric cases (both give `NaN`) to `0`, and leaves a numeric
  value unchanged (`0 || 0` is `0`).
* Network calls are modelled by oracle parameters carrying the outcome the
  remote gateway would produce; the calls the controller issues are recorded
  as events, together with every `session-timer-update` notification sent to
  the renderer and a marker for each invocation of `endCurrentSession`.
* The `remaining` field of the free-tier timer payload (`remainingSeconds/60`
  as a JavaScript float) is not integer-valued and is used by no claim; it is
  omitted from the modelled payload.
-/

namespace ChikuDesktop

/-- A value found under the `cachedRemainingMinutes` key of the persisted
store: a number, or some non-numeric junk value (`Number` of it is `NaN`). -/
inductive StoreVal where
  | num (n : Int)
  | nonNum
deriving DecidableEq, Repr

/-- `Number(this.store.get('cachedRemainingMinutes')) || 0`: an absent key or
a non-numeric value coerces to `0`; a numeric value passes through (for the
value `0` the `|| 0` fallback also yields `0`). -/
def coerceMinutes : Option StoreVal → Int
  | none => 0
  | some StoreVal.nonNum => 0
  | some (StoreVal.num n) => n

/-- Session-relevant state of the `ChikuDesktopApp` instance plus the two
persisted-store facts the component reads (`cachedRemainingMinutes` and the
subscription tier derivable from the stored user object / JWT payload). -/
structure AppState where
  currentSessionId : Option String
  sessionStartTime : Option Int
  /-- `sessionTimer !== null`: the `setInterval` handle is live. -/
  sessionTimerActive : Bool
  timerSessionId : Option String
  sessionStartingMinutes : Int
  cachedRemainingMinutes : Option StoreVal
  /-- `user?.subscriptionTier || <tier extracted from the JWT payload>`;
  `none` when both the field and the token extraction yield nothing.  Every
  use site falls back to `"free"` on `none`. -/
  subscriptionTier : Option String
  windowReadyForIPC : Bool
  /-- `mainWindow` exists, is not destroyed, and its `webContents` is not
  destroyed. -/
  windowAlive : Bool
  isInterviewMode : Bool
deriving DecidableEq, Repr

/-- The resolved tier every branch of the code compares against `'free'`:
`subscriptionTier || 'free'` in the tick, and
`user?.subscriptionTier || extractSubscriptionTier(user?.token)` (whose
fallback is also `'free'`) in `transformToInterviewMode`. -/
def resolvedTier (st : AppState) : String :=
  st.subscriptionTier.getD "free"

/-- Two-digit zero padding, `String(n).padStart(2, '0')` for the
non-negative inputs produced by the code. -/
def pad2 (n : Int) : String :=
  if n < 10 then "0" ++ toString n else toString n

/-- Payload of a `session-timer-update` notification (the float-valued
`remaining` compatibility field is omitted, see the file header). -/
structure TimerData where
  type : String
  elapsed : Int
  remainingSeconds : Int
  display : String
deriving DecidableEq, Repr

/-- A request the controller issues to the remote gateway. `endedAt` is the
epoch-millisecond instant whose ISO rendering the code sends. -/
inductive GatewayCall where
  | syncRealtime (sessionId : String) (minutesUsed : Int)
  | finalize (sessionId : String) (minutesUsed : Int) (endedAt : Int) (status : String)
deriving DecidableEq, Repr

/-- Observable events of one controller step: renderer notifications, gateway
requests, and a marker recorded whenever `endCurrentSession` is invoked. -/
inductive Event where
  | timerUpdate (td : TimerData)
  | gateway (c : GatewayCall)
  | endSessionInvoked
deriving DecidableEq, Repr

/-- Outcome of the `/api/desktop-sessions/update-realtime` request, as the
tick observes it: `ok m` is a resolved response with truthy `success` and
`user` fields and `user.remainingMinutes = m` (`none` when the field is
absent, which `|| 0` coerces to `0`); `notOk` is a resolved response whose
`success`/`user` check fails; `err` is a rejected request (network, auth, or
non-2xx status), swallowed by the inner `catch`. -/
inductive SyncResult where
  | ok (remainingMinutes : Option Int)
  | notOk
  | err
deriving DecidableEq, Repr

/-- Outcome of the `/api/desktop-sessions/update` finalize request.  Every
constructor is handled inside `updateSessionMinutes`'s `catch` (an HTTP 403 is
explicitly treated as a successful end; other failures are only logged), so
the outcome never influences the controller state. -/
inductive FinalizeResult where
  | ok
  | networkError
  | authError
  | permissionError
deriving DecidableEq, Repr

/-- `clearSessionTimer`: drops the interval handle and the timer's bound
session identifier; nothing else is touched (the `windowReadyForIPC = false`
line is commented out in the source). -/
def clearSessionTimer (st : AppState) : AppState :=
  { st with sessionTimerActive := false, timerSessionId := none }

/-- `updateSessionMinutes`: issues the finalize request only when
`minutesUsed > 0` (the webapp rejects zero-minute updates), always with
status `'completed'`; all failure outcomes are caught and discarded. -/
def updateSessionMinutes (sessionId : String) (minutesUsed : Int) (endedAt : Int)
    (_outcome : FinalizeResult) : List GatewayCall :=
  if minutesUsed > 0 then
    [GatewayCall.finalize sessionId minutesUsed endedAt "completed"]
  else
    []

/-- Session-relevant effect of `transformToDashboardMode` on a state whose
`currentSessionId` is already `none` (the only way the body past the re-entry
guard is reached): clear the timer, rebuild the window, leave interview
mode. -/
def transformToDashboardCore (st : AppState) : AppState :=
  if st.windowAlive ∧ st.isInterviewMode then
    { clearSessionTimer st with isInterviewMode := false }
  else
    st

/-- `endCurrentSession` at wall-clock instant `nowMs` with the finalize
request resolving to `outcome`.  With an active session it computes elapsed
whole minutes, lets `updateSessionMinutes` decide whether to issue the
finalize request, then unconditionally clears the timer and the session
identity and returns to dashboard mode.  With no session it goes straight to
`transformToDashboardMode`.  (A state with a session identifier but no start
time would make the real code re-enter itself forever through
`transformToDashboardMode`; the two fields are always set and cleared
together, so that state never arises — the embedding leaves it fixed.) -/
def endCurrentSession (st : AppState) (nowMs : Int) (outcome : FinalizeResult) :
    AppState × List Event :=
  match st.currentSessionId, st.sessionStartTime with
  | some sid, some t0 =>
      let elapsed := (nowMs - t0) / 1000 / 60
      let calls := updateSessionMinutes sid elapsed nowMs outcome
      let st1 := { clearSessionTimer st with
                     currentSessionId := none, sessionStartTime := none }
      (transformToDashboardCore st1, calls.map Event.gateway)
  | none, _ => (transformToDashboardCore st, [])
  | some _, none => (st, [])

/-- Free-tier body of the tick (the `userTier === 'free'` branch): recompute
`remainingSeconds = Math.max(0, startingMinutes * 60 - elapsedSeconds)`, send
the timer update, and end the session when the value has reached zero. -/
def freeTickBody (st : AppState) (t0 nowMs : Int) (fin : FinalizeResult) :
    AppState × List Event :=
  let elapsedSeconds := (nowMs - t0) / 1000
  let elapsed := elapsedSeconds / 60
  let sessionTimeLimitSeconds := st.sessionStartingMinutes * 60
  let remainingSeconds := max 0 (sessionTimeLimitSeconds - elapsedSeconds)
  let td : TimerData :=
    { type := "free", elapsed := elapsed, remainingSeconds := remainingSeconds,
      display := toString (remainingSeconds / 60) ++ ":" ++ pad2 (remainingSeconds % 60) }
  if remainingSeconds ≤ 0 then
    let r := endCurrentSession st nowMs fin
    (r.1, Event.timerUpdate td :: Event.endSessionInvoked :: r.2)
  else
    (st, [Event.timerUpdate td])

/-- Display-and-expiry tail of the paid-tier tick: read the cached balance
back from the store (coercing absence and non-numbers to `0`), recompute
`remainingSeconds`, send the timer update, and end the session when the value
has reached zero. -/
def paidDisplayStep (st : AppState) (t0 nowMs : Int) (fin : FinalizeResult) :
    AppState × List Event :=
  let elapsedSeconds := (nowMs - t0) / 1000
  let elapsed := elapsedSeconds / 60
  let cached := coerceMinutes st.cachedRemainingMinutes
  let totalAccountSeconds := cached * 60
  let remainingSeconds := max 0 (totalAccountSeconds - elapsedSeconds)
  let td : TimerData :=
    { type := "paid", elapsed := elapsed, remainingSeconds := remainingSeconds,
      display := toString (remainingSeconds / 60) ++ ":" ++ pad2 (remainingSeconds % 60) ++ " left" }
  if remainingSeconds ≤ 0 then
    let r := endCurrentSession st nowMs fin
    (r.1, Event.timerUpdate td :: Event.endSessionInvoked :: r.2)
  else
    (st, [Event.timerUpdate td])

/-- Paid-tier body of the tick: every 30th elapsed second (and only past
second zero) issue the realtime sync carrying `Math.floor(elapsedSeconds/60)`
minutes — with no zero-minute guard; on a well-formed success overwrite the
cached balance and end the session at once when the reported balance is
`<= 0`; then fall through to the countdown display. -/
def paidTickBody (st : AppState) (sid : String) (t0 nowMs : Int)
    (sync : SyncResult) (fin : FinalizeResult) : AppState × List Event :=
  let elapsedSeconds := (nowMs - t0) / 1000
  if elapsedSeconds % 30 = 0 ∧ elapsedSeconds > 0 then
    let minutesUsedSoFar := elapsedSeconds / 60
    let syncEv := Event.gateway (GatewayCall.syncRealtime sid minutesUsedSoFar)
    match sync with
    | SyncResult.ok m =>
        let newRemainingMinutes := m.getD 0
        let st1 := { st with
          cachedRemainingMinutes := some (StoreVal.num newRemainingMinutes) }
        if newRemainingMinutes ≤ 0 then
          let r := endCurrentSession st1 nowMs fin
          (r.1, syncEv :: Event.endSessionInvoked :: r.2)
        else
          let r := paidDisplayStep st1 t0 nowMs fin
          (r.1, syncEv :: r.2)
    | SyncResult.notOk =>
        let r := paidDisplayStep st t0 nowMs fin
        (r.1, syncEv :: r.2)
    | SyncResult.err =>
        let r := paidDisplayStep st t0 nowMs fin
        (r.1, syncEv :: r.2)
  else
    paidDisplayStep st t0 nowMs fin

/-- One firing of the `setInterval` callback installed by
`startSessionTimer`, at wall-clock instant `nowMs`, with the gateway
outcomes a step would observe supplied as oracles.  Mirrors the source: the
stale-timer identity check, the live-session check, the window-liveness
guard, and the free/paid branch on the resolved tier. -/
def tick (st : AppState) (nowMs : Int) (sync : SyncResult) (fin : FinalizeResult) :
    AppState × List Event :=
  if st.timerSessionId ≠ st.currentSessionId then
    (clearSessionTimer st, [])
  else
    match st.sessionStartTime, st.currentSessionId with
    | some t0, some sid =>
        if st.windowReadyForIPC ∧ st.windowAlive then
          if resolvedTier st = "free" then
            freeTickBody st t0 nowMs fin
          else
            paidTickBody st sid t0 nowMs sync fin
        else
          (st, [])
    | _, _ => (clearSessionTimer st, [])

/-- Run a sequence of ticks; each input is the wall-clock instant of the
firing together with the gateway oracles for that step.  Events are
concatenated in firing order. -/
def runTicks (st : AppState) : List (Int × SyncResult × FinalizeResult) →
    AppState × List Event
  | [] => (st, [])
  | i :: rest =>
      let r := tick st i.1 i.2.1 i.2.2
      let r2 := runTicks r.1 rest
      (r2.1, r.2 ++ r2.2)

/-- The `remainingSeconds` values carried by the timer-update notifications
of an event trace, in emission order. -/
def remValues (evs : List Event) : List Int :=
  evs.filterMap fun e =>
    match e with
    | Event.timerUpdate td => some td.remainingSeconds
    | _ => none

/-- The finalize requests contained in an event trace. -/
def finalizeCalls (evs : List Event) : List GatewayCall :=
  evs.filterMap fun e =>
    match e with
    | Event.gateway (GatewayCall.finalize sid mu ea status) =>
        some (GatewayCall.finalize sid mu ea status)
    | _ => none

/-- The statuses carried by the finalize requests of an event trace. -/
def finalizeStatuses (evs : List Event) : List String :=
  evs.filterMap fun e =>
    match e with
    | Event.gateway (GatewayCall.finalize _ _ _ status) => some status
    | _ => none

/-- How many times `endCurrentSession` was invoked along an event trace. -/
def endInvocationCount (evs : List Event) : Nat :=
  (evs.filter fun e => e = Event.endSessionInvoked).length

/-- Outcome of the `/api/desktop-user` balance fetch in
`transformToInterviewMode`: `ok m` is a resolved response with truthy
`success` and `user` whose `user.remainingMinutes` numeric coercion is `m`
(`none` for absent/non-numeric, which `Number(_) || 0` turns into `0`);
`notOk` is a resolved response failing that check (the code then keeps the
previous `sessionStartingMinutes`); `err` is a rejected request, answered by
the tier-default fallback. -/
inductive BalanceFetchResult where
  | ok (remainingMinutes : Option Int)
  | notOk
  | err
deriving DecidableEq, Repr

/-- Session-relevant effect of `transformToInterviewMode` through the
`dom-ready` handler that arms the timer: adopt a fresh local session
identifier and start time; snapshot the starting balance from the fetch
result (caching it for paid tiers) or fall back to the tier default (10
minutes free, 0 paid) when the fetch rejects; adopt the server-issued
session identifier when creation succeeds; then mark the window ready and
arm the per-second timer bound to the current session identifier. -/
def startSession (st : AppState) (localSid : String) (nowMs : Int)
    (fetch : BalanceFetchResult) (create : Option String) : AppState :=
  if ¬ st.windowAlive ∨ st.isInterviewMode then
    st
  else
    let st0 := { st with currentSessionId := some localSid,
                         sessionStartTime := some nowMs }
    let st1 :=
      match fetch with
      | BalanceFetchResult.ok m =>
          let mins := m.getD 0
          let stA := { st0 with sessionStartingMinutes := mins }
          if resolvedTier stA ≠ "free" then
            { stA with cachedRemainingMinutes := some (StoreVal.num mins) }
          else
            stA
      | BalanceFetchResult.notOk => st0
      | BalanceFetchResult.err =>
          { st0 with sessionStartingMinutes :=
              if resolvedTier st0 = "free" then 10 else 0 }
    let st2 :=
      match create with
      | some serverSid => { st1 with currentSessionId := some serverSid }
      | none => st1
    let st3 := clearSessionTimer st2
    { st3 with windowReadyForIPC := true, isInterviewMode := true,
               sessionTimerActive := true, timerSessionId := st3.currentSessionId }

/-- The countdown budget in seconds the free-tier tick counts down from
(`sessionTimeLimitSeconds = this.sessionStartingMinutes * 60`). -/
def countdownBudgetSeconds (st : AppState) : Int :=
  st.sessionStartingMinutes * 60

/-- Session-relevant effect of the `logout` IPC handler (and of the cache
clearing performed on a new login): delete the stored user and the cached
balance, null out the session identity, and clear the timer. -/
def logoutHandler (st : AppState) : AppState :=
  clearSessionTimer
    { st with cachedRemainingMinutes := none, subscriptionTier := none,
              currentSessionId := none, sessionStartTime := none,
              sessionStartingMinutes := 0 }

end ChikuDesktop


namespace ChikuDesktop

theorem remValues_append (l1 l2 : List Event) :
    remValues (l1 ++ l2) = remValues l1 ++ remValues l2 := by
  simp [remValues, List.filterMap_append]

theorem remValues_gatewayMap (l : List GatewayCall) :
    remValues (l.map Event.gateway) = [] := by
  induction l with
  | nil => rfl
  | cons c rest ih => simp only [List.map_cons, remValues, List.filterMap_cons] at ih ⊢; exact ih

theorem remValues_endCurrentSession (st : AppState) (now : Int) (f : FinalizeResult) :
    remValues (endCurrentSession st now f).2 = [] := by
  unfold endCurrentSession
  rcases h1 : st.currentSessionId with _ | sid <;>
    rcases h2 : st.sessionStartTime with _ | t0 <;>
      simp [remValues_gatewayMap, remValues]

def PreservesCore (st st' : AppState) : Prop :=
  st'.subscriptionTier = st.subscriptionTier ∧
  st'.sessionStartingMinutes = st.sessionStartingMinutes ∧
  st'.windowReadyForIPC = st.windowReadyForIPC ∧
  st'.windowAlive = st.windowAlive ∧
  (st'.sessionStartTime = st.sessionStartTime ∨ st'.sessionStartTime = none) ∧
  (st'.currentSessionId = st.currentSessionId ∨ st'.currentSessionId = none)

theorem preservesCore_refl (st : AppState) : PreservesCore st st := by
  simp [PreservesCore]

theorem endCurrentSession_preserves (st : AppState) (now : Int) (f : FinalizeResult) :
    PreservesCore st (endCurrentSession st now f).1 := by
  unfold endCurrentSession transformToDashboardCore clearSessionTimer
  rcases h1 : st.currentSessionId with _ | sid <;>
    rcases h2 : st.sessionStartTime with _ | t0 <;>
      simp [PreservesCore] <;> split <;> simp [h1, h2]

theorem endCurrentSession_cache (st : AppState) (now : Int) (f : FinalizeResult) :
    (endCurrentSession st now f).1.cachedRemainingMinutes = st.cachedRemainingMinutes := by
  unfold endCurrentSession transformToDashboardCore clearSessionTimer
  rcases h1 : st.currentSessionId with _ | sid <;>
    rcases h2 : st.sessionStartTime with _ | t0 <;>
      simp <;> split <;> simp

theorem paidDisplayStep_preserves (st : AppState) (t0 now : Int) (f : FinalizeResult) :
    PreservesCore st (paidDisplayStep st t0 now f).1 := by
  simp only [paidDisplayStep]
  split
  · exact endCurrentSession_preserves st now f
  · exact preservesCore_refl st

theorem preservesCore_cacheSet (st : AppState) (v : Option StoreVal) (st' : AppState)
    (h : PreservesCore { st with cachedRemainingMinutes := v } st') :
    PreservesCore st st' := by
  simpa [PreservesCore] using h

theorem paidTickBody_preserves (st : AppState) (sid : String) (t0 now : Int)
    (sync : SyncResult) (f : FinalizeResult) :
    PreservesCore st (paidTickBody st sid t0 now sync f).1 := by
  simp only [paidTickBody]
  split
  · cases sync with
    | ok m =>
        simp only
        split
        · exact preservesCore_cacheSet st _ _ (endCurrentSession_preserves _ now f)
        · exact preservesCore_cacheSet st _ _ (paidDisplayStep_preserves _ t0 now f)
    | notOk => exact paidDisplayStep_preserves st t0 now f
    | err => exact paidDisplayStep_preserves st t0 now f
  · exact paidDisplayStep_preserves st t0 now f

theorem freeTickBody_preserves (st : AppState) (t0 now : Int) (f : FinalizeResult) :
    PreservesCore st (freeTickBody st t0 now f).1 := by
  simp only [freeTickBody]
  split
  · exact endCurrentSession_preserves st now f
  · exact preservesCore_refl st

theorem clearSessionTimer_preserves (st : AppState) :
    PreservesCore st (clearSessionTimer st) := by
  simp [PreservesCore, clearSessionTimer]

theorem tick_preserves (st : AppState) (now : Int) (sync : SyncResult) (f : FinalizeResult) :
    PreservesCore st (tick st now sync f).1 := by
  unfold tick
  split
  · exact clearSessionTimer_preserves st
  · split
    · split
      · split
        · exact freeTickBody_preserves st _ now f
        · exact paidTickBody_preserves st _ _ now sync f
      · exact preservesCore_refl st
    · exact clearSessionTimer_preserves st

end ChikuDesktop

namespace ChikuDesktop

/-- The free-tier countdown value the tick recomputes at instant `now` for a
session with starting balance `B` minutes that began at instant `t0`. -/
def freeVal (B t0 now : Int) : Int :=
  max 0 (B * 60 - (now - t0) / 1000)

theorem freeVal_nonneg (B t0 now : Int) : 0 ≤ freeVal B t0 now :=
  le_max_left 0 _

theorem freeVal_antitone (B t0 n1 n2 : Int) (h : n1 ≤ n2) :
    freeVal B t0 n2 ≤ freeVal B t0 n1 := by
  unfold freeVal
  have hd : (n1 - t0) / 1000 ≤ (n2 - t0) / 1000 := by omega
  exact max_le_max le_rfl (by omega)

theorem remValues_timerUpdate_cons (td : TimerData) (l : List Event) :
    remValues (Event.timerUpdate td :: l) = td.remainingSeconds :: remValues l := by
  simp [remValues, List.filterMap_cons]

theorem remValues_endInvoked_cons (l : List Event) :
    remValues (Event.endSessionInvoked :: l) = remValues l := by
  simp [remValues, List.filterMap_cons]

theorem remValues_gateway_cons (c : GatewayCall) (l : List Event) :
    remValues (Event.gateway c :: l) = remValues l := by
  simp [remValues, List.filterMap_cons]

theorem remValues_freeTickBody (st : AppState) (t0 now : Int) (f : FinalizeResult) :
    remValues (freeTickBody st t0 now f).2 =
      [freeVal st.sessionStartingMinutes t0 now] := by
  simp only [freeTickBody]
  split
  · simp [remValues_timerUpdate_cons, remValues_endInvoked_cons,
      remValues_endCurrentSession, freeVal]
  · simp [remValues_timerUpdate_cons, remValues, freeVal]

theorem tick_active (st : AppState) (sid : String) (t0 now : Int)
    (sync : SyncResult) (f : FinalizeResult)
    (hts : st.timerSessionId = st.currentSessionId)
    (hcs : st.currentSessionId = some sid) (hst : st.sessionStartTime = some t0)
    (hw : st.windowReadyForIPC = true) (ha : st.windowAlive = true) :
    tick st now sync f =
      if resolvedTier st = "free" then freeTickBody st t0 now f
      else paidTickBody st sid t0 now sync f := by
  unfold tick
  rw [hst, hcs]
  simp [hts, hcs, hw, ha]

end ChikuDesktop

namespace ChikuDesktop

theorem paidDisplayStep_cache (st : AppState) (t0 now : Int) (f : FinalizeResult) :
    (paidDisplayStep st t0 now f).1.cachedRemainingMinutes = st.cachedRemainingMinutes := by
  simp only [paidDisplayStep]
  split
  · exact endCurrentSession_cache st now f
  · rfl

theorem remValues_paidDisplayStep (st : AppState) (t0 now : Int) (f : FinalizeResult) :
    remValues (paidDisplayStep st t0 now f).2 =
      [max 0 (coerceMinutes st.cachedRemainingMinutes * 60 - (now - t0) / 1000)] := by
  simp only [paidDisplayStep]
  split
  · simp [remValues_timerUpdate_cons, remValues_endInvoked_cons,
      remValues_endCurrentSession]
  · simp [remValues_timerUpdate_cons, remValues]

theorem paidTickBody_remValues (st : AppState) (sid : String) (t0 now : Int)
    (sync : SyncResult) (f : FinalizeResult) :
    remValues (paidTickBody st sid t0 now sync f).2 = [] ∨
    remValues (paidTickBody st sid t0 now sync f).2 =
      [max 0 (coerceMinutes (paidTickBody st sid t0 now sync f).1.cachedRemainingMinutes * 60
              - (now - t0) / 1000)] := by
  simp only [paidTickBody]
  split
  · cases sync with
    | ok m =>
        simp only
        split
        · left
          simp [remValues_gateway_cons, remValues_endInvoked_cons,
            remValues_endCurrentSession]
        · right
          simp [remValues_gateway_cons, remValues_paidDisplayStep,
            paidDisplayStep_cache]
    | notOk =>
        right
        simp [remValues_gateway_cons, remValues_paidDisplayStep, paidDisplayStep_cache]
    | err =>
        right
        simp [remValues_gateway_cons, remValues_paidDisplayStep, paidDisplayStep_cache]
  · right
    simp [remValues_paidDisplayStep, paidDisplayStep_cache]

theorem tick_remValues_nonneg (st : AppState) (now : Int) (sync : SyncResult)
    (f : FinalizeResult) : ∀ v ∈ remValues (tick st now sync f).2, 0 ≤ v := by
  unfold tick
  split
  · simp [remValues]
  · split
    · split
      · split
        · intro v hv
          rw [remValues_freeTickBody] at hv
          simp at hv
          subst hv
          exact freeVal_nonneg _ _ _
        · intro v hv
          rcases paidTickBody_remValues st _ _ now sync f with h | h <;> rw [h] at hv
          · simp at hv
          · simp at hv
            subst hv
            exact le_max_left 0 _
      · simp [remValues]
    · simp [remValues]

theorem runTicks_remValues_nonneg :
    ∀ (inputs : List (Int × SyncResult × FinalizeResult)) (st : AppState),
      ∀ v ∈ remValues (runTicks st inputs).2, 0 ≤ v := by
  intro inputs
  induction inputs with
  | nil => intro st v hv; simp [runTicks, remValues] at hv
  | cons i rest ih =>
      intro st v hv
      simp only [runTicks] at hv
      rw [remValues_append] at hv
      rcases List.mem_append.mp hv with h | h
      · exact tick_remValues_nonneg st i.1 i.2.1 i.2.2 v h
      · exact ih _ v h

end ChikuDesktop

namespace ChikuDesktop

/-- Facts about a state that the free-tier countdown depends on and that
ticking can only preserve (or retire, by clearing the session): the resolved
tier, the starting balance, and the session start instant. -/
def FreeInv (B t0 : Int) (st : AppState) : Prop :=
  resolvedTier st = "free" ∧ st.sessionStartingMinutes = B ∧
  (st.sessionStartTime = none ∨ st.sessionStartTime = some t0)

theorem freeInv_tick (B t0 : Int) (st : AppState) (now : Int) (sync : SyncResult)
    (f : FinalizeResult) (h : FreeInv B t0 st) :
    FreeInv B t0 (tick st now sync f).1 := by
  obtain ⟨ht, hB, hs⟩ := h
  obtain ⟨hp1, hp2, _, _, hp5, _⟩ := tick_preserves st now sync f
  refine ⟨?_, hp2.trans hB, ?_⟩
  · rw [resolvedTier, hp1]; exact ht
  · rcases hp5 with h5 | h5
    · rw [h5]; exact hs
    · exact Or.inl h5

theorem tick_free_remValues (B t0 : Int) (st : AppState) (now : Int)
    (sync : SyncResult) (f : FinalizeResult) (h : FreeInv B t0 st) :
    remValues (tick st now sync f).2 = [] ∨
    remValues (tick st now sync f).2 = [freeVal B t0 now] := by
  obtain ⟨ht, hB, hs⟩ := h
  by_cases hid : st.timerSessionId ≠ st.currentSessionId
  · left
    unfold tick
    rw [if_pos hid]
    simp [remValues]
  · rcases hs with hs | hs
    · left
      unfold tick
      rw [if_neg hid, hs]
      cases hcs : st.currentSessionId <;> simp [remValues]
    · cases hcs : st.currentSessionId with
      | none =>
          left
          unfold tick
          rw [if_neg hid, hs, hcs]
          simp [remValues]
      | some sid =>
          unfold tick
          rw [if_neg hid, hs, hcs]
          dsimp only
          by_cases hw : st.windowReadyForIPC = true ∧ st.windowAlive = true
          · rw [if_pos hw, if_pos ht]
            right
            rw [remValues_freeTickBody, hB]
          · rw [if_neg hw]
            left
            simp [remValues]

theorem runTicks_free_mem (B t0 : Int) :
    ∀ (inputs : List (Int × SyncResult × FinalizeResult)) (st : AppState),
      FreeInv B t0 st →
      ∀ v ∈ remValues (runTicks st inputs).2,
        ∃ i ∈ inputs, v = freeVal B t0 i.1 := by
  intro inputs
  induction inputs with
  | nil => intro st _ v hv; simp [runTicks, remValues] at hv
  | cons i rest ih =>
      intro st hinv v hv
      simp only [runTicks] at hv
      rw [remValues_append] at hv
      rcases List.mem_append.mp hv with h | h
      · rcases tick_free_remValues B t0 st i.1 i.2.1 i.2.2 hinv with he | he <;>
          rw [he] at h
        · simp at h
        · simp at h
          exact ⟨i, List.mem_cons_self i rest, h⟩
      · obtain ⟨j, hj, hv⟩ := ih _ (freeInv_tick B t0 st i.1 i.2.1 i.2.2 hinv) v h
        exact ⟨j, List.mem_cons_of_mem i hj, hv⟩

theorem runTicks_free_pairwise (B t0 : Int) :
    ∀ (inputs : List (Int × SyncResult × FinalizeResult)) (st : AppState),
      FreeInv B t0 st →
      List.Pairwise (· ≤ ·) (inputs.map Prod.fst) →
      List.Pairwise (fun a b => b ≤ a) (remValues (runTicks st inputs).2) := by
  intro inputs
  induction inputs with
  | nil => intro st _ _; simp [runTicks, remValues]
  | cons i rest ih =>
      intro st hinv hmono
      simp only [List.map_cons, List.pairwise_cons] at hmono
      obtain ⟨hle, hmono'⟩ := hmono
      simp only [runTicks]
      rw [remValues_append, List.pairwise_append]
      refine ⟨?_, ih _ (freeInv_tick B t0 st i.1 i.2.1 i.2.2 hinv) hmono', ?_⟩
      · rcases tick_free_remValues B t0 st i.1 i.2.1 i.2.2 hinv with he | he <;>
          rw [he] <;> simp
      · intro a ha b hb
        rcases tick_free_remValues B t0 st i.1 i.2.1 i.2.2 hinv with he | he <;>
          rw [he] at ha
        · simp at ha
        · simp at ha
          subst ha
          obtain ⟨j, hj, hb'⟩ := runTicks_free_mem B t0 rest _
            (freeInv_tick B t0 st i.1 i.2.1 i.2.2 hinv) b hb
          subst hb'
          exact freeVal_antitone B t0 i.1 j.1 (hle j.1 (List.mem_map_of_mem Prod.fst hj))

end ChikuDesktop

namespace ChikuDesktop

theorem tick_paid_emit (st : AppState) (now : Int) (sync : SyncResult)
    (f : FinalizeResult) (v : Int) (ht : resolvedTier st ≠ "free")
    (h : remValues (tick st now sync f).2 = [v]) :
    ∃ t0, st.sessionStartTime = some t0 ∧
      v = max 0 (coerceMinutes (tick st now sync f).1.cachedRemainingMinutes * 60
                 - (now - t0) / 1000) := by
  by_cases hid : st.timerSessionId ≠ st.currentSessionId
  · exfalso
    unfold tick at h
    rw [if_pos hid] at h
    simp [remValues] at h
  · cases hs : st.sessionStartTime with
    | none =>
        exfalso
        unfold tick at h
        rw [if_neg hid, hs] at h
        cases hcs : st.currentSessionId <;> rw [hcs] at h <;> simp [remValues] at h
    | some t0 =>
        cases hcs : st.currentSessionId with
        | none =>
            exfalso
            unfold tick at h
            rw [if_neg hid, hs, hcs] at h
            simp [remValues] at h
        | some sid =>
            refine ⟨t0, rfl, ?_⟩
            unfold tick at h ⊢
            rw [if_neg hid, hs, hcs] at h ⊢
            dsimp only at h ⊢
            by_cases hw : st.windowReadyForIPC = true ∧ st.windowAlive = true
            · rw [if_pos hw] at h ⊢
              rw [if_neg ht] at h ⊢
              rcases paidTickBody_remValues st sid t0 now sync f with he | he <;>
                rw [he] at h
              · exact absurd h (by simp)
              · simp at h
                rw [h]
            · exfalso
              rw [if_neg hw] at h
              simp [remValues] at h

theorem paid_two_tick_nonincreasing (st : AppState) (now1 now2 : Int)
    (s1 s2 : SyncResult) (f1 f2 : FinalizeResult) (v1 v2 : Int)
    (ht : resolvedTier st ≠ "free") (hmono : now1 ≤ now2)
    (h1 : remValues (tick st now1 s1 f1).2 = [v1])
    (h2 : remValues (tick (tick st now1 s1 f1).1 now2 s2 f2).2 = [v2])
    (hcache : coerceMinutes (tick (tick st now1 s1 f1).1 now2 s2 f2).1.cachedRemainingMinutes ≤
              coerceMinutes (tick st now1 s1 f1).1.cachedRemainingMinutes) :
    v2 ≤ v1 := by
  obtain ⟨t0, hst, hv1⟩ := tick_paid_emit st now1 s1 f1 v1 ht h1
  have htier1 : resolvedTier (tick st now1 s1 f1).1 ≠ "free" := by
    obtain ⟨hp1, _⟩ := tick_preserves st now1 s1 f1
    rw [resolvedTier, hp1]
    exact ht
  obtain ⟨t0', hst', hv2⟩ := tick_paid_emit _ now2 s2 f2 v2 htier1 h2
  have ht0 : t0' = t0 := by
    obtain ⟨_, _, _, _, hp5, _⟩ := tick_preserves st now1 s1 f1
    rcases hp5 with h5 | h5
    · rw [h5, hst] at hst'
      injection hst' with e
      exact e.symm
    · rw [h5] at hst'
      cases hst'
  subst ht0
  rw [hv1, hv2]
  have hd : (now1 - t0') / 1000 ≤ (now2 - t0') / 1000 := by omega
  exact max_le_max le_rfl (by omega)

end ChikuDesktop

namespace ChikuDesktop

/-- A live free-tier session: identifiers agree, window ready, 10 starting
minutes, session began at epoch instant 0. -/
def egFreeSession : AppState :=
  { currentSessionId := some "sess-free", sessionStartTime := some 0,
    sessionTimerActive := true, timerSessionId := some "sess-free",
    sessionStartingMinutes := 10, cachedRemainingMinutes := none,
    subscriptionTier := some "free", windowReadyForIPC := true,
    windowAlive := true, isInterviewMode := true }

/-- A live paid-tier session with one cached remaining minute. -/
def egPaidSession : AppState :=
  { egFreeSession with
    currentSessionId := some "sess-paid", timerSessionId := some "sess-paid",
    subscriptionTier := some "pro", sessionStartingMinutes := 1,
    cachedRemainingMinutes := some (StoreVal.num 1) }

/-- **C1, counterexample.**  In the paid-tier branch the countdown is
recomputed from the cached balance, which a successful 30-second sync
overwrites with whatever balance the server reports; a sync reporting a
larger balance makes `remainingSeconds` jump upward.  Two successive ticks of
a live paid session (29s and 30s after start, the sync answering 100
remaining minutes) notify `remainingSeconds = 31` and then `5970`, so the
sequence of successive timer-update values is not non-increasing. -/
theorem C1_counterexample :
    remValues (runTicks egPaidSession
        [(29000, SyncResult.ok (some 100), FinalizeResult.ok),
         (30000, SyncResult.ok (some 100), FinalizeResult.ok)]).2 = [31, 5970] ∧
    ¬ List.Pairwise (fun a b => b ≤ a)
        (remValues (runTicks egPaidSession
          [(29000, SyncResult.ok (some 100), FinalizeResult.ok),
           (30000, SyncResult.ok (some 100), FinalizeResult.ok)]).2) := by
  constructor
  · decide
  · decide

/-- **C1** (amended).  For every session and every sequence of ticks, the
`remainingSeconds` carried by timer-update notifications is never negative
(both branches compute it with a floor of 0); in the free-tier branch the
successive values are non-increasing whenever tick instants are
non-decreasing; in the paid-tier branch two successive notified values are
non-increasing provided the coerced cached balance did not increase between
the two notifications (a successful sync reporting a larger server balance
may increase the countdown, as the counterexample shows). -/
theorem C1_countdown_monotone :
    (∀ (inputs : List (Int × SyncResult × FinalizeResult)) (st : AppState),
       ∀ v ∈ remValues (runTicks st inputs).2, 0 ≤ v) ∧
    (∀ (B t0 : Int) (inputs : List (Int × SyncResult × FinalizeResult)) (st : AppState),
       FreeInv B t0 st →
       List.Pairwise (· ≤ ·) (inputs.map Prod.fst) →
       List.Pairwise (fun a b => b ≤ a) (remValues (runTicks st inputs).2)) ∧
    (∀ (st : AppState) (now1 now2 : Int) (s1 s2 : SyncResult)
       (f1 f2 : FinalizeResult) (v1 v2 : Int),
       resolvedTier st ≠ "free" → now1 ≤ now2 →
       remValues (tick st now1 s1 f1).2 = [v1] →
       remValues (tick (tick st now1 s1 f1).1 now2 s2 f2).2 = [v2] →
       coerceMinutes (tick (tick st now1 s1 f1).1 now2 s2 f2).1.cachedRemainingMinutes ≤
         coerceMinutes (tick st now1 s1 f1).1.cachedRemainingMinutes →
       v2 ≤ v1) :=
  ⟨runTicks_remValues_nonneg,
   fun B t0 => runTicks_free_pairwise B t0,
   paid_two_tick_nonincreasing⟩

/-- **C1, witness.**  The three parts of `C1_countdown_monotone` applied at
concrete runs: a free session ticked at 10s and 12s, and a paid session
ticked at 1s and 2s with an untouched cache. -/
theorem C1_witness :
    (0:Int) ≤ 590 ∧
    List.Pairwise (fun a b => b ≤ a)
      (remValues (runTicks egFreeSession
        [(10000, SyncResult.err, FinalizeResult.ok),
         (12000, SyncResult.err, FinalizeResult.ok)]).2) ∧
    (58:Int) ≤ 59 :=
  ⟨C1_countdown_monotone.1
      [(10000, SyncResult.err, FinalizeResult.ok)] egFreeSession 590 (by decide),
   C1_countdown_monotone.2.1 10 0
      [(10000, SyncResult.err, FinalizeResult.ok),
       (12000, SyncResult.err, FinalizeResult.ok)] egFreeSession
      ⟨rfl, rfl, Or.inr rfl⟩ (by decide),
   C1_countdown_monotone.2.2 egPaidSession 1000 2000 SyncResult.err SyncResult.err
      FinalizeResult.ok FinalizeResult.ok 59 58
      (by decide) (by decide) (by decide) (by decide) (by decide)⟩

end ChikuDesktop

namespace ChikuDesktop

theorem sync_not_in_endCurrentSession (st : AppState) (now : Int) (f : FinalizeResult)
    (sid : String) (mu : Int) :
    Event.gateway (GatewayCall.syncRealtime sid mu) ∉ (endCurrentSession st now f).2 := by
  unfold endCurrentSession
  rcases h1 : st.currentSessionId with _ | sid0 <;>
    rcases h2 : st.sessionStartTime with _ | t0 <;> simp
  unfold updateSessionMinutes
  split <;> simp

theorem sync_not_in_freeTickBody (st : AppState) (t0 now : Int) (f : FinalizeResult)
    (sid : String) (mu : Int) :
    Event.gateway (GatewayCall.syncRealtime sid mu) ∉ (freeTickBody st t0 now f).2 := by
  simp only [freeTickBody]
  split
  · simp
    exact fun h => sync_not_in_endCurrentSession st now f sid mu h
  · simp

theorem sync_not_in_paidDisplayStep (st : AppState) (t0 now : Int) (f : FinalizeResult)
    (sid : String) (mu : Int) :
    Event.gateway (GatewayCall.syncRealtime sid mu) ∉ (paidDisplayStep st t0 now f).2 := by
  simp only [paidDisplayStep]
  split
  · simp
    exact fun h => sync_not_in_endCurrentSession st now f sid mu h
  · simp

theorem paidTickBody_sync_mem (st : AppState) (sid0 : String) (t0 now : Int)
    (sync : SyncResult) (f : FinalizeResult) (sid : String) (mu : Int)
    (h : Event.gateway (GatewayCall.syncRealtime sid mu) ∈
          (paidTickBody st sid0 t0 now sync f).2) :
    sid = sid0 ∧ (now - t0) / 1000 % 30 = 0 ∧ 0 < (now - t0) / 1000 ∧
      mu = (now - t0) / 1000 / 60 := by
  by_cases hc : (now - t0) / 1000 % 30 = 0 ∧ (now - t0) / 1000 > 0
  · refine ?_
    unfold paidTickBody at h
    rw [if_pos hc] at h
    have hhead : sid = sid0 ∧ mu = (now - t0) / 1000 / 60 := by
      cases sync with
      | ok m =>
          dsimp only at h
          split at h
          · rcases List.mem_cons.mp h with he | h
            · injection he with he; injection he with e1 e2; exact ⟨e1, e2⟩
            · exfalso
              rcases List.mem_cons.mp h with he | h
              · cases he
              · exact sync_not_in_endCurrentSession _ now f sid mu h
          · rcases List.mem_cons.mp h with he | h
            · injection he with he; injection he with e1 e2; exact ⟨e1, e2⟩
            · exact absurd h (sync_not_in_paidDisplayStep _ t0 now f sid mu)
      | notOk =>
          rcases List.mem_cons.mp h with he | h
          · injection he with he; injection he with e1 e2; exact ⟨e1, e2⟩
          · exact absurd h (sync_not_in_paidDisplayStep _ t0 now f sid mu)
      | err =>
          rcases List.mem_cons.mp h with he | h
          · injection he with he; injection he with e1 e2; exact ⟨e1, e2⟩
          · exact absurd h (sync_not_in_paidDisplayStep _ t0 now f sid mu)
    exact ⟨hhead.1, hc.1, hc.2, hhead.2⟩
  · exfalso
    unfold paidTickBody at h
    rw [if_neg hc] at h
    exact sync_not_in_paidDisplayStep st t0 now f sid mu h

end ChikuDesktop

namespace ChikuDesktop

theorem tick_sync_mem (st : AppState) (now : Int) (sync : SyncResult)
    (f : FinalizeResult) (sid : String) (mu : Int)
    (h : Event.gateway (GatewayCall.syncRealtime sid mu) ∈ (tick st now sync f).2) :
    st.currentSessionId = some sid ∧ ∃ t0, st.sessionStartTime = some t0 ∧
      (now - t0) / 1000 % 30 = 0 ∧ 0 < (now - t0) / 1000 ∧
      mu = (now - t0) / 1000 / 60 := by
  by_cases hid : st.timerSessionId ≠ st.currentSessionId
  · exfalso
    unfold tick at h
    rw [if_pos hid] at h
    simp at h
  · cases hs : st.sessionStartTime with
    | none =>
        exfalso
        unfold tick at h
        rw [if_neg hid, hs] at h
        cases hcs : st.currentSessionId <;> rw [hcs] at h <;> simp at h
    | some t0 =>
        cases hcs : st.currentSessionId with
        | none =>
            exfalso
            unfold tick at h
            rw [if_neg hid, hs, hcs] at h
            simp at h
        | some sid0 =>
            unfold tick at h
            rw [if_neg hid, hs, hcs] at h
            dsimp only at h
            by_cases hw : st.windowReadyForIPC = true ∧ st.windowAlive = true
            · rw [if_pos hw] at h
              by_cases htier : resolvedTier st = "free"
              · rw [if_pos htier] at h
                exact absurd h (sync_not_in_freeTickBody st t0 now f sid mu)
              · rw [if_neg htier] at h
                obtain ⟨he, h30, hpos, hmu⟩ := paidTickBody_sync_mem st sid0 t0 now sync f sid mu h
                subst he
                exact ⟨rfl, t0, rfl, h30, hpos, hmu⟩
            · exfalso
              rw [if_neg hw] at h
              simp at h

theorem tick_sync_issued (st : AppState) (sid : String) (t0 now : Int)
    (sync : SyncResult) (f : FinalizeResult)
    (hts : st.timerSessionId = st.currentSessionId)
    (hcs : st.currentSessionId = some sid) (hst : st.sessionStartTime = some t0)
    (hw : st.windowReadyForIPC = true) (ha : st.windowAlive = true)
    (htier : resolvedTier st ≠ "free")
    (h30 : (now - t0) / 1000 % 30 = 0) (hpos : 0 < (now - t0) / 1000) :
    Event.gateway (GatewayCall.syncRealtime sid ((now - t0) / 1000 / 60)) ∈
      (tick st now sync f).2 := by
  rw [tick_active st sid t0 now sync f hts hcs hst hw ha, if_neg htier]
  unfold paidTickBody
  rw [if_pos ⟨h30, hpos⟩]
  cases sync with
  | ok m =>
      dsimp only
      split <;> exact List.mem_cons_self _ _
  | notOk => exact List.mem_cons_self _ _
  | err => exact List.mem_cons_self _ _

/-- **C2, counterexample.**  At 30 elapsed seconds of a paid session the code
sets `shouldUpdateDB = (elapsedSeconds % 30 === 0 && elapsedSeconds > 0)` and
issues the realtime sync with `minutesUsed = Math.floor(30 / 60) = 0`: there
is no skip-if-zero guard, and a `syncRealtime` gateway call does occur before
60 elapsed seconds, carrying zero minutes. -/
theorem C2_counterexample :
    Event.gateway (GatewayCall.syncRealtime "sess-paid" 0) ∈
      (tick egPaidSession 30000 (SyncResult.ok (some 5)) FinalizeResult.ok).2 ∧
    ((30000 : Int) - 0) / 1000 < 60 := by
  constructor
  · decide
  · decide

/-- **C2** (amended).  During an active paid-tier session a `syncRealtime`
gateway call is issued exactly at the ticks whose elapsed seconds are a
positive multiple of 30, and it always carries
`minutesUsed = Math.floor(elapsedSeconds / 60)` with no zero-minute guard —
in particular the 30-second tick issues a zero-minute sync, so sync calls do
occur before 60 elapsed seconds.  (Soundness: any emitted sync implies the
schedule and the minute formula; completeness: on schedule, the sync is
emitted.) -/
theorem C2_sync_schedule :
    (∀ (st : AppState) (now : Int) (sync : SyncResult) (f : FinalizeResult)
       (sid : String) (mu : Int),
       Event.gateway (GatewayCall.syncRealtime sid mu) ∈ (tick st now sync f).2 →
       st.currentSessionId = some sid ∧ ∃ t0, st.sessionStartTime = some t0 ∧
         (now - t0) / 1000 % 30 = 0 ∧ 0 < (now - t0) / 1000 ∧
         mu = (now - t0) / 1000 / 60) ∧
    (∀ (st : AppState) (sid : String) (t0 now : Int) (sync : SyncResult)
       (f : FinalizeResult),
       st.timerSessionId = st.currentSessionId →
       st.currentSessionId = some sid → st.sessionStartTime = some t0 →
       st.windowReadyForIPC = true → st.windowAlive = true →
       resolvedTier st ≠ "free" →
       (now - t0) / 1000 % 30 = 0 → 0 < (now - t0) / 1000 →
       Event.gateway (GatewayCall.syncRealtime sid ((now - t0) / 1000 / 60)) ∈
         (tick st now sync f).2) :=
  ⟨tick_sync_mem, tick_sync_issued⟩

/-- **C2, witness.**  Both parts of `C2_sync_schedule` applied at a live paid
session 30 seconds after start: the zero-minute sync is issued on schedule. -/
theorem C2_witness :
    (egPaidSession.currentSessionId = some "sess-paid" ∧
      ∃ t0, egPaidSession.sessionStartTime = some t0 ∧
        ((30000 : Int) - t0) / 1000 % 30 = 0 ∧ 0 < ((30000 : Int) - t0) / 1000 ∧
        (0 : Int) = ((30000 : Int) - t0) / 1000 / 60) ∧
    Event.gateway (GatewayCall.syncRealtime "sess-paid" (((30000 : Int) - 0) / 1000 / 60)) ∈
      (tick egPaidSession 30000 SyncResult.err FinalizeResult.ok).2 :=
  ⟨C2_sync_schedule.1 egPaidSession 30000 (SyncResult.ok (some 5)) FinalizeResult.ok
      "sess-paid" 0 (by decide),
   C2_sync_schedule.2 egPaidSession "sess-paid" 0 30000 SyncResult.err FinalizeResult.ok
      (by decide) (by decide) (by decide) (by decide) (by decide) (by decide)
      (by decide) (by decide)⟩

end ChikuDesktop

namespace ChikuDesktop

theorem transformToDashboardCore_sid (st : AppState) :
    (transformToDashboardCore st).currentSessionId = st.currentSessionId := by
  unfold transformToDashboardCore clearSessionTimer
  split <;> rfl

theorem endCurrentSession_active (st : AppState) (sid : String) (t0 now : Int)
    (f : FinalizeResult) (hcs : st.currentSessionId = some sid)
    (hst : st.sessionStartTime = some t0) :
    endCurrentSession st now f =
      (transformToDashboardCore
         { clearSessionTimer st with
             currentSessionId := none, sessionStartTime := none },
       (updateSessionMinutes sid ((now - t0) / 1000 / 60) now f).map Event.gateway) := by
  unfold endCurrentSession
  rw [hcs, hst]

theorem tick_free_exhaustion (st : AppState) (sid : String) (t0 now : Int)
    (sync : SyncResult) (f : FinalizeResult)
    (hts : st.timerSessionId = st.currentSessionId)
    (hcs : st.currentSessionId = some sid) (hst : st.sessionStartTime = some t0)
    (hw : st.windowReadyForIPC = true) (ha : st.windowAlive = true)
    (htier : resolvedTier st = "free")
    (hB : 1 ≤ st.sessionStartingMinutes)
    (hex : st.sessionStartingMinutes * 60 ≤ (now - t0) / 1000) :
    (tick st now sync f).2 =
      [Event.timerUpdate
         { type := "free", elapsed := (now - t0) / 1000 / 60,
           remainingSeconds := 0, display := "0:00" },
       Event.endSessionInvoked,
       Event.gateway (GatewayCall.finalize sid ((now - t0) / 1000 / 60) now "completed")] ∧
    (tick st now sync f).1.currentSessionId = none := by
  rw [tick_active st sid t0 now sync f hts hcs hst hw ha, if_pos htier]
  simp only [freeTickBody]
  have hmax : max 0 (st.sessionStartingMinutes * 60 - (now - t0) / 1000) = 0 :=
    max_eq_left (by omega)
  rw [hmax]
  rw [if_pos le_rfl]
  rw [endCurrentSession_active st sid t0 now f hcs hst]
  have hmin : 0 < (now - t0) / 1000 / 60 := by omega
  unfold updateSessionMinutes
  rw [if_pos hmin]
  refine ⟨?_, ?_⟩
  · simp
    decide
  · simp [transformToDashboardCore_sid]

theorem tick_paid_sync_exhaustion (st : AppState) (sid : String) (t0 now : Int)
    (m : Option Int) (f : FinalizeResult)
    (hts : st.timerSessionId = st.currentSessionId)
    (hcs : st.currentSessionId = some sid) (hst : st.sessionStartTime = some t0)
    (hw : st.windowReadyForIPC = true) (ha : st.windowAlive = true)
    (htier : resolvedTier st ≠ "free")
    (h30 : (now - t0) / 1000 % 30 = 0) (h60 : 60 ≤ (now - t0) / 1000)
    (hm : m.getD 0 ≤ 0) :
    (tick st now (SyncResult.ok m) f).2 =
      [Event.gateway (GatewayCall.syncRealtime sid ((now - t0) / 1000 / 60)),
       Event.endSessionInvoked,
       Event.gateway (GatewayCall.finalize sid ((now - t0) / 1000 / 60) now "completed")] ∧
    (tick st now (SyncResult.ok m) f).1.currentSessionId = none := by
  rw [tick_active st sid t0 now (SyncResult.ok m) f hts hcs hst hw ha, if_neg htier]
  unfold paidTickBody
  rw [if_pos ⟨h30, by omega⟩]
  dsimp only
  rw [if_pos hm]
  rw [endCurrentSession_active _ sid t0 now f (by exact hcs) (by exact hst)]
  have hmin : 0 < (now - t0) / 1000 / 60 := by omega
  unfold updateSessionMinutes
  rw [if_pos hmin]
  refine ⟨by simp, by simp [transformToDashboardCore_sid]⟩

theorem tick_no_session (st : AppState) (now : Int) (sync : SyncResult)
    (f : FinalizeResult) (h : st.currentSessionId = none) :
    endInvocationCount (tick st now sync f).2 = 0 ∧
    (tick st now sync f).1.currentSessionId = none := by
  by_cases hid : st.timerSessionId ≠ st.currentSessionId
  · unfold tick
    rw [if_pos hid]
    exact ⟨rfl, by simp [clearSessionTimer, h]⟩
  · unfold tick
    rw [if_neg hid, h]
    cases hs : st.sessionStartTime <;>
      exact ⟨rfl, by simp [clearSessionTimer, h]⟩

end ChikuDesktop

namespace ChikuDesktop

/-- **C3, counterexample.**  A free session with a 10-minute budget exhausts
its countdown at 600 elapsed seconds; the tick then invokes
`endCurrentSession`, whose gateway finalize call carries status
`'completed'` — `updateSessionMinutes` hard-codes `status: 'completed'` and
never sends `'expired'`, contradicting the claim. -/
theorem C3_counterexample :
    finalizeStatuses (tick egFreeSession 600000 SyncResult.err FinalizeResult.ok).2 =
      ["completed"] ∧
    "completed" ≠ "expired" := by
  constructor
  · decide
  · decide

/-- **C3** (amended).  When a session terminates because its time is
exhausted — the free-tier countdown reaching zero, or a paid-tier sync
reporting a remaining balance `<= 0` — the tick invokes `endCurrentSession`
exactly once: the terminating tick's event trace contains exactly one
invocation, the finalize call carries `minutesUsed = Math.floor(elapsed/60)`
and status `'completed'` (not `'expired'`; the code labels every finalize
`'completed'`), and every later tick, finding the session cleared, invokes
`endCurrentSession` zero further times. -/
theorem C3_expired_end_once :
    (∀ (st : AppState) (sid : String) (t0 now : Int) (sync : SyncResult)
       (f : FinalizeResult),
       st.timerSessionId = st.currentSessionId →
       st.currentSessionId = some sid → st.sessionStartTime = some t0 →
       st.windowReadyForIPC = true → st.windowAlive = true →
       resolvedTier st = "free" → 1 ≤ st.sessionStartingMinutes →
       st.sessionStartingMinutes * 60 ≤ (now - t0) / 1000 →
       (tick st now sync f).2 =
         [Event.timerUpdate
            { type := "free", elapsed := (now - t0) / 1000 / 60,
              remainingSeconds := 0, display := "0:00" },
          Event.endSessionInvoked,
          Event.gateway
            (GatewayCall.finalize sid ((now - t0) / 1000 / 60) now "completed")] ∧
       (tick st now sync f).1.currentSessionId = none) ∧
    (∀ (st : AppState) (sid : String) (t0 now : Int) (m : Option Int)
       (f : FinalizeResult),
       st.timerSessionId = st.currentSessionId →
       st.currentSessionId = some sid → st.sessionStartTime = some t0 →
       st.windowReadyForIPC = true → st.windowAlive = true →
       resolvedTier st ≠ "free" →
       (now - t0) / 1000 % 30 = 0 → 60 ≤ (now - t0) / 1000 → m.getD 0 ≤ 0 →
       (tick st now (SyncResult.ok m) f).2 =
         [Event.gateway (GatewayCall.syncRealtime sid ((now - t0) / 1000 / 60)),
          Event.endSessionInvoked,
          Event.gateway
            (GatewayCall.finalize sid ((now - t0) / 1000 / 60) now "completed")] ∧
       (tick st now (SyncResult.ok m) f).1.currentSessionId = none) ∧
    (∀ (st : AppState) (now : Int) (sync : SyncResult) (f : FinalizeResult),
       st.currentSessionId = none →
       endInvocationCount (tick st now sync f).2 = 0 ∧
       (tick st now sync f).1.currentSessionId = none) :=
  ⟨tick_free_exhaustion, tick_paid_sync_exhaustion, tick_no_session⟩

/-- **C3, witness.**  `C3_expired_end_once` applied at the 600-second tick of
the live free session (its countdown budget is 10 minutes), at a 60-second
paid sync reporting balance 0, and at the cleared state that results. -/
theorem C3_witness :
    ((tick egFreeSession 600000 SyncResult.err FinalizeResult.ok).2 =
      [Event.timerUpdate
         { type := "free", elapsed := ((600000 : Int) - 0) / 1000 / 60,
           remainingSeconds := 0, display := "0:00" },
       Event.endSessionInvoked,
       Event.gateway (GatewayCall.finalize "sess-free" (((600000 : Int) - 0) / 1000 / 60)
         600000 "completed")] ∧
     (tick egFreeSession 600000 SyncResult.err FinalizeResult.ok).1.currentSessionId = none) ∧
    ((tick egPaidSession 60000 (SyncResult.ok (some 0)) FinalizeResult.ok).2 =
      [Event.gateway (GatewayCall.syncRealtime "sess-paid" (((60000 : Int) - 0) / 1000 / 60)),
       Event.endSessionInvoked,
       Event.gateway (GatewayCall.finalize "sess-paid" (((60000 : Int) - 0) / 1000 / 60)
         60000 "completed")] ∧
     (tick egPaidSession 60000 (SyncResult.ok (some 0)) FinalizeResult.ok).1.currentSessionId = none) ∧
    (endInvocationCount (tick (tick egFreeSession 600000 SyncResult.err FinalizeResult.ok).1
        601000 SyncResult.err FinalizeResult.ok).2 = 0 ∧
     (tick (tick egFreeSession 600000 SyncResult.err FinalizeResult.ok).1
        601000 SyncResult.err FinalizeResult.ok).1.currentSessionId = none) :=
  ⟨C3_expired_end_once.1 egFreeSession "sess-free" 0 600000 SyncResult.err FinalizeResult.ok
      (by decide) (by decide) (by decide) (by decide) (by decide) (by decide)
      (by decide) (by decide),
   C3_expired_end_once.2.1 egPaidSession "sess-paid" 0 60000 (some 0) FinalizeResult.ok
      (by decide) (by decide) (by decide) (by decide) (by decide) (by decide)
      (by decide) (by decide) (by decide),
   C3_expired_end_once.2.2 (tick egFreeSession 600000 SyncResult.err FinalizeResult.ok).1
      601000 SyncResult.err FinalizeResult.ok (by decide)⟩

end ChikuDesktop

namespace ChikuDesktop

theorem endCurrentSession_finalizeCalls (st : AppState) (sid : String) (t0 now : Int)
    (f : FinalizeResult) (hcs : st.currentSessionId = some sid)
    (hst : st.sessionStartTime = some t0) :
    finalizeCalls (endCurrentSession st now f).2 =
      if 0 < (now - t0) / 1000 / 60
      then [GatewayCall.finalize sid ((now - t0) / 1000 / 60) now "completed"]
      else [] := by
  rw [endCurrentSession_active st sid t0 now f hcs hst]
  unfold updateSessionMinutes
  split <;> simp [finalizeCalls]

/-- **C4, counterexample.**  A session that ran for 30 seconds: `endSession`
computes `Math.floor(30/60) = 0` minutes, and `updateSessionMinutes` skips
the gateway call entirely (`if (minutesUsed > 0)`), so no finalize call
carrying a 1-minute floor — or any finalize call at all — is issued. -/
theorem C4_counterexample :
    egFreeSession.currentSessionId = some "sess-free" ∧
    egFreeSession.sessionStartTime = some 0 ∧
    finalizeCalls (endCurrentSession egFreeSession 30000 FinalizeResult.ok).2 = [] := by
  refine ⟨by decide, by decide, by decide⟩

/-- **C4** (amended).  For every session with an active identifier and start
time, `endSession` computes whole minutes used from `startTime` to now and
issues the gateway finalize call only when that value is at least 1; when
less than one whole minute elapsed the call is skipped entirely (no minimum
of 1 is applied).  Whenever a finalize call is issued, it carries
`minutesUsed >= 1`. -/
theorem C4_finalize_minutes :
    ∀ (st : AppState) (sid : String) (t0 now : Int) (f : FinalizeResult),
      st.currentSessionId = some sid → st.sessionStartTime = some t0 →
      (finalizeCalls (endCurrentSession st now f).2 =
        if 0 < (now - t0) / 1000 / 60
        then [GatewayCall.finalize sid ((now - t0) / 1000 / 60) now "completed"]
        else []) ∧
      (∀ (sd : String) (mu ea : Int) (stt : String),
        GatewayCall.finalize sd mu ea stt ∈ finalizeCalls (endCurrentSession st now f).2 →
        1 ≤ mu) := by
  intro st sid t0 now f hcs hst
  refine ⟨endCurrentSession_finalizeCalls st sid t0 now f hcs hst, ?_⟩
  intro sd mu ea stt hmem
  rw [endCurrentSession_finalizeCalls st sid t0 now f hcs hst] at hmem
  by_cases hpos : 0 < (now - t0) / 1000 / 60
  · rw [if_pos hpos] at hmem
    simp at hmem
    omega
  · rw [if_neg hpos] at hmem
    simp at hmem

/-- **C4, witness.**  `C4_finalize_minutes` applied to the live free session
at 30 elapsed seconds (no call) and at 90 elapsed seconds (a 1-minute
call). -/
theorem C4_witness :
    (finalizeCalls (endCurrentSession egFreeSession 30000 FinalizeResult.ok).2 =
      if 0 < ((30000 : Int) - 0) / 1000 / 60
      then [GatewayCall.finalize "sess-free" (((30000 : Int) - 0) / 1000 / 60) 30000 "completed"]
      else []) ∧
    (finalizeCalls (endCurrentSession egFreeSession 90000 FinalizeResult.permissionError).2 =
      if 0 < ((90000 : Int) - 0) / 1000 / 60
      then [GatewayCall.finalize "sess-free" (((90000 : Int) - 0) / 1000 / 60) 90000 "completed"]
      else []) :=
  ⟨(C4_finalize_minutes egFreeSession "sess-free" 0 30000 FinalizeResult.ok
      (by decide) (by decide)).1,
   (C4_finalize_minutes egFreeSession "sess-free" 0 90000 FinalizeResult.permissionError
      (by decide) (by decide)).1⟩

end ChikuDesktop

namespace ChikuDesktop

theorem tick_free_active_value (st : AppState) (sid : String) (t0 now : Int)
    (sync : SyncResult) (f : FinalizeResult)
    (hts : st.timerSessionId = st.currentSessionId)
    (hcs : st.currentSessionId = some sid) (hst : st.sessionStartTime = some t0)
    (hw : st.windowReadyForIPC = true) (ha : st.windowAlive = true)
    (htier : resolvedTier st = "free") :
    remValues (tick st now sync f).2 = [freeVal st.sessionStartingMinutes t0 now] := by
  rw [tick_active st sid t0 now sync f hts hcs hst hw ha, if_pos htier]
  exact remValues_freeTickBody st t0 now f

theorem tick_free_positive_state (st : AppState) (sid : String) (t0 now : Int)
    (sync : SyncResult) (f : FinalizeResult)
    (hts : st.timerSessionId = st.currentSessionId)
    (hcs : st.currentSessionId = some sid) (hst : st.sessionStartTime = some t0)
    (hw : st.windowReadyForIPC = true) (ha : st.windowAlive = true)
    (htier : resolvedTier st = "free")
    (hpos : 0 < freeVal st.sessionStartingMinutes t0 now) :
    (tick st now sync f).1 = st := by
  rw [tick_active st sid t0 now sync f hts hcs hst hw ha, if_pos htier]
  simp only [freeTickBody]
  simp only [freeVal] at hpos
  rw [if_neg (not_le.mpr hpos)]

theorem freeVal_pos_sub (B t0 now : Int) (hpos : 0 < freeVal B t0 now) :
    freeVal B t0 (now + 1000) = freeVal B t0 now - 1 := by
  have hx : 0 < B * 60 - (now - t0) / 1000 := by
    by_contra hc
    push_neg at hc
    rw [freeVal, max_eq_left hc] at hpos
    exact absurd hpos (lt_irrefl 0)
  have hdiv : (now + 1000 - t0) / 1000 = (now - t0) / 1000 + 1 := by omega
  rw [freeVal, freeVal, hdiv, max_eq_right (by omega), max_eq_right (by omega)]
  ring

/-- **C5, counterexample.**  The code recomputes
`remainingSeconds = Math.max(0, budget - elapsedSeconds)` from the wall clock
on every tick, so a tick that fires 2 seconds after the previous one (the
interval callback reads `new Date()`, which does not tick in lockstep with
`setInterval`) drops the value by 2, not by exactly 1: ticks of the live
free session at 10s and 12s notify 590 then 588. -/
theorem C5_counterexample :
    remValues (runTicks egFreeSession
      [(10000, SyncResult.err, FinalizeResult.ok),
       (12000, SyncResult.err, FinalizeResult.ok)]).2 = [590, 588] ∧
    ¬ ((590 : Int) - 588 = 1) := by
  constructor
  · decide
  · decide

/-- **C5** (amended).  On each tick of an active free-tier session,
`remainingSeconds` is recomputed from wall-clock elapsed time since start as
`max 0 (startingMinutes * 60 - Math.floor((now - startTime)/1000))` (the
value `freeVal`), not maintained as a decremented counter; consequently it
decreases by exactly 1 between ticks exactly one second apart while it is
positive (the previous tick leaving the state unchanged), and it is floored
at 0 once the budget is exhausted. -/
theorem C5_recomputed_countdown :
    (∀ (st : AppState) (sid : String) (t0 now : Int) (sync : SyncResult)
       (f : FinalizeResult),
       st.timerSessionId = st.currentSessionId →
       st.currentSessionId = some sid → st.sessionStartTime = some t0 →
       st.windowReadyForIPC = true → st.windowAlive = true →
       resolvedTier st = "free" →
       remValues (tick st now sync f).2 = [freeVal st.sessionStartingMinutes t0 now]) ∧
    (∀ (st : AppState) (sid : String) (t0 now : Int) (s1 s2 : SyncResult)
       (f1 f2 : FinalizeResult),
       st.timerSessionId = st.currentSessionId →
       st.currentSessionId = some sid → st.sessionStartTime = some t0 →
       st.windowReadyForIPC = true → st.windowAlive = true →
       resolvedTier st = "free" →
       0 < freeVal st.sessionStartingMinutes t0 now →
       (tick st now s1 f1).1 = st ∧
       remValues (tick (tick st now s1 f1).1 (now + 1000) s2 f2).2 =
         [freeVal st.sessionStartingMinutes t0 now - 1]) ∧
    (∀ (B t0 now : Int), B * 60 ≤ (now - t0) / 1000 → freeVal B t0 now = 0) := by
  refine ⟨tick_free_active_value, ?_, ?_⟩
  · intro st sid t0 now s1 s2 f1 f2 hts hcs hst hw ha htier hpos
    have hstate := tick_free_positive_state st sid t0 now s1 f1 hts hcs hst hw ha htier hpos
    refine ⟨hstate, ?_⟩
    rw [hstate, tick_free_active_value st sid t0 (now + 1000) s2 f2 hts hcs hst hw ha htier,
      freeVal_pos_sub st.sessionStartingMinutes t0 now hpos]
  · intro B t0 now hex
    exact max_eq_left (by omega)

/-- **C5, witness.**  `C5_recomputed_countdown` applied to the live free
session at 10 seconds: the tick notifies `freeVal 10 0 10000 = 590`, leaves
the state unchanged, and the tick one second later notifies 589. -/
theorem C5_witness :
    (remValues (tick egFreeSession 10000 SyncResult.err FinalizeResult.ok).2 =
      [freeVal 10 0 10000]) ∧
    ((tick egFreeSession 10000 SyncResult.err FinalizeResult.ok).1 = egFreeSession ∧
     remValues (tick (tick egFreeSession 10000 SyncResult.err FinalizeResult.ok).1
        11000 SyncResult.err FinalizeResult.ok).2 = [freeVal 10 0 10000 - 1]) ∧
    freeVal 10 0 600000 = 0 :=
  ⟨C5_recomputed_countdown.1 egFreeSession "sess-free" 0 10000 SyncResult.err
      FinalizeResult.ok (by decide) (by decide) (by decide) (by decide) (by decide)
      (by decide),
   C5_recomputed_countdown.2.1 egFreeSession "sess-free" 0 10000 SyncResult.err
      SyncResult.err FinalizeResult.ok FinalizeResult.ok (by decide) (by decide)
      (by decide) (by decide) (by decide) (by decide) (by decide),
   C5_recomputed_countdown.2.2 10 0 600000 (by decide)⟩

end ChikuDesktop

namespace ChikuDesktop

/-- **C6.**  A tick whose bound `timerSessionId` differs from the current
session identifier only cancels its own timer (interval handle dropped,
bound identifier nulled): `currentSessionId`, `sessionStartTime`,
`sessionStartingMinutes` and the cached balance are unchanged and no
timer-update notification (indeed, no event at all) is emitted. -/
theorem C6_stale_tick_noop :
    ∀ (st : AppState) (now : Int) (sync : SyncResult) (f : FinalizeResult),
      st.timerSessionId ≠ st.currentSessionId →
      tick st now sync f =
        ({ st with sessionTimerActive := false, timerSessionId := none }, []) ∧
      (tick st now sync f).1.currentSessionId = st.currentSessionId ∧
      (tick st now sync f).1.sessionStartTime = st.sessionStartTime ∧
      (tick st now sync f).1.sessionStartingMinutes = st.sessionStartingMinutes ∧
      (tick st now sync f).1.cachedRemainingMinutes = st.cachedRemainingMinutes ∧
      remValues (tick st now sync f).2 = [] := by
  intro st now sync f h
  have he : tick st now sync f = (clearSessionTimer st, []) := by
    unfold tick
    rw [if_pos h]
  rw [he]
  exact ⟨rfl, rfl, rfl, rfl, rfl, rfl⟩

/-- A live free session whose timer is still bound to a torn-down session
identifier (the rapid teardown/recreate race the identity check guards). -/
def egStaleTimer : AppState :=
  { egFreeSession with timerSessionId := some "sess-old" }

/-- **C6, witness.**  `C6_stale_tick_noop` applied to the stale-timer
state. -/
theorem C6_witness :
    tick egStaleTimer 5000 SyncResult.err FinalizeResult.ok =
      ({ egStaleTimer with sessionTimerActive := false, timerSessionId := none }, []) ∧
    (tick egStaleTimer 5000 SyncResult.err FinalizeResult.ok).1.currentSessionId =
      egStaleTimer.currentSessionId ∧
    (tick egStaleTimer 5000 SyncResult.err FinalizeResult.ok).1.sessionStartTime =
      egStaleTimer.sessionStartTime ∧
    (tick egStaleTimer 5000 SyncResult.err FinalizeResult.ok).1.sessionStartingMinutes =
      egStaleTimer.sessionStartingMinutes ∧
    (tick egStaleTimer 5000 SyncResult.err FinalizeResult.ok).1.cachedRemainingMinutes =
      egStaleTimer.cachedRemainingMinutes ∧
    remValues (tick egStaleTimer 5000 SyncResult.err FinalizeResult.ok).2 = [] :=
  C6_stale_tick_noop egStaleTimer 5000 SyncResult.err FinalizeResult.ok (by decide)

theorem transformToDashboardCore_start (st : AppState) :
    (transformToDashboardCore st).sessionStartTime = st.sessionStartTime := by
  unfold transformToDashboardCore clearSessionTimer
  split <;> rfl

theorem endCurrentSession_clears (st : AppState) (sid : String) (t0 now : Int)
    (f : FinalizeResult) (hcs : st.currentSessionId = some sid)
    (hst : st.sessionStartTime = some t0) :
    (endCurrentSession st now f).1.currentSessionId = none ∧
    (endCurrentSession st now f).1.sessionStartTime = none ∧
    (endCurrentSession st now f).1.sessionTimerActive = false ∧
    (endCurrentSession st now f).1.timerSessionId = none := by
  rw [endCurrentSession_active st sid t0 now f hcs hst]
  unfold transformToDashboardCore clearSessionTimer
  split <;> simp

theorem endCurrentSession_no_sid (st : AppState) (now : Int) (f : FinalizeResult)
    (h : st.currentSessionId = none) :
    endCurrentSession st now f = (transformToDashboardCore st, []) := by
  unfold endCurrentSession
  rw [h]

/-- **C7, counterexample.**  A session that ran 30 seconds: calling
`endSession` twice in a row issues zero gateway finalize calls in total, not
exactly one — the first call computes 0 whole minutes and
`updateSessionMinutes` skips the request. -/
theorem C7_counterexample :
    egFreeSession.currentSessionId = some "sess-free" ∧
    (finalizeCalls (endCurrentSession egFreeSession 30000 FinalizeResult.ok).2 ++
     finalizeCalls (endCurrentSession
        (endCurrentSession egFreeSession 30000 FinalizeResult.ok).1
        31000 FinalizeResult.ok).2).length = 0 ∧
    ¬ ((0 : Nat) = 1) := by
  refine ⟨by decide, by decide, by decide⟩

/-- **C7** (amended).  `endSession` is idempotent: with an active session the
second of two consecutive calls issues no gateway traffic at all, and the
two calls together produce at most one finalize call — exactly one when at
least one whole minute elapsed, none otherwise; calling `endSession` with no
active session issues no gateway call and leaves `currentSessionId`,
`sessionStartTime`, `sessionStartingMinutes` and the cached balance
unchanged. -/
theorem C7_end_session_idempotent :
    (∀ (st : AppState) (sid : String) (t0 now now2 : Int) (f f2 : FinalizeResult),
       st.currentSessionId = some sid → st.sessionStartTime = some t0 →
       (endCurrentSession (endCurrentSession st now f).1 now2 f2).2 = []) ∧
    (∀ (st : AppState) (sid : String) (t0 now : Int) (f : FinalizeResult),
       st.currentSessionId = some sid → st.sessionStartTime = some t0 →
       (finalizeCalls (endCurrentSession st now f).2).length =
         if 0 < (now - t0) / 1000 / 60 then 1 else 0) ∧
    (∀ (st : AppState) (now : Int) (f : FinalizeResult),
       st.currentSessionId = none → st.sessionStartTime = none →
       (endCurrentSession st now f).2 = [] ∧
       (endCurrentSession st now f).1.currentSessionId = none ∧
       (endCurrentSession st now f).1.sessionStartTime = none ∧
       (endCurrentSession st now f).1.sessionStartingMinutes = st.sessionStartingMinutes ∧
       (endCurrentSession st now f).1.cachedRemainingMinutes = st.cachedRemainingMinutes) := by
  refine ⟨?_, ?_, ?_⟩
  · intro st sid t0 now now2 f f2 hcs hst
    rw [endCurrentSession_no_sid _ now2 f2 (endCurrentSession_clears st sid t0 now f hcs hst).1]
  · intro st sid t0 now f hcs hst
    rw [endCurrentSession_finalizeCalls st sid t0 now f hcs hst]
    split <;> rfl
  · intro st now f hcs hst
    rw [endCurrentSession_no_sid st now f hcs]
    refine ⟨rfl, ?_, ?_, ?_, ?_⟩ <;>
      · unfold transformToDashboardCore clearSessionTimer
        split <;> simp [hcs, hst]

/-- The idle state reached after ending the live free session at 90
seconds. -/
def egIdleState : AppState :=
  (endCurrentSession egFreeSession 90000 FinalizeResult.ok).1

/-- **C7, witness.**  `C7_end_session_idempotent` applied to the live free
session: the second of two calls at 90s/91s is silent, a single call at 90s
issues exactly one finalize (one whole minute elapsed), and a call on the
resulting idle state is a no-op preserving the session-tracking fields. -/
theorem C7_witness :
    (endCurrentSession (endCurrentSession egFreeSession 90000 FinalizeResult.ok).1
        91000 FinalizeResult.ok).2 = [] ∧
    (finalizeCalls (endCurrentSession egFreeSession 90000 FinalizeResult.ok).2).length =
      (if 0 < ((90000 : Int) - 0) / 1000 / 60 then 1 else 0) ∧
    ((endCurrentSession egIdleState 95000 FinalizeResult.ok).2 = [] ∧
     (endCurrentSession egIdleState 95000 FinalizeResult.ok).1.currentSessionId = none ∧
     (endCurrentSession egIdleState 95000 FinalizeResult.ok).1.sessionStartTime = none ∧
     (endCurrentSession egIdleState 95000 FinalizeResult.ok).1.sessionStartingMinutes =
       egIdleState.sessionStartingMinutes ∧
     (endCurrentSession egIdleState 95000 FinalizeResult.ok).1.cachedRemainingMinutes =
       egIdleState.cachedRemainingMinutes) :=
  ⟨C7_end_session_idempotent.1 egFreeSession "sess-free" 0 90000 91000
      FinalizeResult.ok FinalizeResult.ok (by decide) (by decide),
   C7_end_session_idempotent.2.1 egFreeSession "sess-free" 0 90000 FinalizeResult.ok
      (by decide) (by decide),
   C7_end_session_idempotent.2.2 egIdleState 95000 FinalizeResult.ok
      (by decide) (by decide)⟩

/-- **C8.**  For every gateway outcome of the finalize call — success,
`NetworkError`, `AuthError`, or `PermissionError` (HTTP 403, insufficient
balance) — `endSession` clears the timer, the session identifier, the start
time and the timer's bound identifier, so the controller always ends idle;
the finalize call is attempted at most once (no retry), and the whole
observable result of `endSession` is independent of the gateway outcome, so
a `PermissionError` is treated exactly like a successful termination. -/
theorem C8_end_always_idle :
    (∀ (st : AppState) (sid : String) (t0 now : Int) (outcome : FinalizeResult),
       st.currentSessionId = some sid → st.sessionStartTime = some t0 →
       (endCurrentSession st now outcome).1.currentSessionId = none ∧
       (endCurrentSession st now outcome).1.sessionStartTime = none ∧
       (endCurrentSession st now outcome).1.sessionTimerActive = false ∧
       (endCurrentSession st now outcome).1.timerSessionId = none ∧
       (finalizeCalls (endCurrentSession st now outcome).2).length ≤ 1) ∧
    (∀ (st : AppState) (now : Int) (o1 o2 : FinalizeResult),
       endCurrentSession st now o1 = endCurrentSession st now o2) := by
  refine ⟨?_, ?_⟩
  · intro st sid t0 now outcome hcs hst
    obtain ⟨h1, h2, h3, h4⟩ := endCurrentSession_clears st sid t0 now outcome hcs hst
    refine ⟨h1, h2, h3, h4, ?_⟩
    rw [endCurrentSession_finalizeCalls st sid t0 now outcome hcs hst]
    split <;> simp
  · intro st now o1 o2
    rfl

/-- **C8, witness.**  `C8_end_always_idle` applied to the live free session
with the gateway answering `PermissionError`: the controller still reaches
the idle state with at most one finalize attempt, and the result coincides
with the successful-gateway result. -/
theorem C8_witness :
    ((endCurrentSession egFreeSession 90000 FinalizeResult.permissionError).1.currentSessionId = none ∧
     (endCurrentSession egFreeSession 90000 FinalizeResult.permissionError).1.sessionStartTime = none ∧
     (endCurrentSession egFreeSession 90000 FinalizeResult.permissionError).1.sessionTimerActive = false ∧
     (endCurrentSession egFreeSession 90000 FinalizeResult.permissionError).1.timerSessionId = none ∧
     (finalizeCalls (endCurrentSession egFreeSession 90000 FinalizeResult.permissionError).2).length ≤ 1) ∧
    endCurrentSession egFreeSession 90000 FinalizeResult.permissionError =
      endCurrentSession egFreeSession 90000 FinalizeResult.ok :=
  ⟨C8_end_always_idle.1 egFreeSession "sess-free" 0 90000 FinalizeResult.permissionError
      (by decide) (by decide),
   C8_end_always_idle.2 egFreeSession 90000 FinalizeResult.permissionError FinalizeResult.ok⟩

end ChikuDesktop

namespace ChikuDesktop

/-- **C9.**  If the initial `/api/desktop-user` balance fetch rejects during
session start, the session still starts — a session identifier is adopted,
the start time is set, and the per-second timer is armed — and the countdown
budget equals the tier-based default: 600 seconds for the free tier and 0
seconds for any paid tier. -/
theorem C9_fetch_failure_default_budget :
    ∀ (st : AppState) (localSid : String) (now : Int) (create : Option String),
      st.windowAlive = true → st.isInterviewMode = false →
      (startSession st localSid now BalanceFetchResult.err create).currentSessionId.isSome = true ∧
      (startSession st localSid now BalanceFetchResult.err create).sessionStartTime = some now ∧
      (startSession st localSid now BalanceFetchResult.err create).sessionTimerActive = true ∧
      countdownBudgetSeconds (startSession st localSid now BalanceFetchResult.err create) =
        (if resolvedTier st = "free" then 600 else 0) := by
  intro st localSid now create hw hi
  have hguard : ¬ (¬ st.windowAlive = true ∨ st.isInterviewMode = true) := by
    simp [hw, hi]
  unfold startSession
  rw [if_neg hguard]
  cases create with
  | none =>
      refine ⟨rfl, rfl, rfl, ?_⟩
      simp only [countdownBudgetSeconds, clearSessionTimer, resolvedTier]
      split <;> norm_num
  | some serverSid =>
      refine ⟨rfl, rfl, rfl, ?_⟩
      simp only [countdownBudgetSeconds, clearSessionTimer, resolvedTier]
      split <;> norm_num

/-- A logged-in dashboard-mode state (free tier, no session, no cache). -/
def egDashboardFree : AppState :=
  { currentSessionId := none, sessionStartTime := none,
    sessionTimerActive := false, timerSessionId := none,
    sessionStartingMinutes := 0, cachedRemainingMinutes := none,
    subscriptionTier := some "free", windowReadyForIPC := false,
    windowAlive := true, isInterviewMode := false }

/-- The same dashboard-mode state for a paid (`"standard"`) subscription. -/
def egDashboardPaid : AppState :=
  { egDashboardFree with subscriptionTier := some "standard" }

/-- **C9, witness.**  `C9_fetch_failure_default_budget` applied to a free and
to a paid dashboard state whose balance fetch rejects: the sessions start
with budgets of 600 and 0 seconds. -/
theorem C9_witness :
    ((startSession egDashboardFree "local-1" 7000 BalanceFetchResult.err
        (some "srv-1")).currentSessionId.isSome = true ∧
     (startSession egDashboardFree "local-1" 7000 BalanceFetchResult.err
        (some "srv-1")).sessionStartTime = some 7000 ∧
     (startSession egDashboardFree "local-1" 7000 BalanceFetchResult.err
        (some "srv-1")).sessionTimerActive = true ∧
     countdownBudgetSeconds (startSession egDashboardFree "local-1" 7000
        BalanceFetchResult.err (some "srv-1")) =
       (if resolvedTier egDashboardFree = "free" then 600 else 0)) ∧
    ((startSession egDashboardPaid "local-2" 7000 BalanceFetchResult.err
        none).currentSessionId.isSome = true ∧
     (startSession egDashboardPaid "local-2" 7000 BalanceFetchResult.err
        none).sessionStartTime = some 7000 ∧
     (startSession egDashboardPaid "local-2" 7000 BalanceFetchResult.err
        none).sessionTimerActive = true ∧
     countdownBudgetSeconds (startSession egDashboardPaid "local-2" 7000
        BalanceFetchResult.err none) =
       (if resolvedTier egDashboardPaid = "free" then 600 else 0)) :=
  ⟨C9_fetch_failure_default_budget egDashboardFree "local-1" 7000 (some "srv-1")
      (by decide) (by decide),
   C9_fetch_failure_default_budget egDashboardPaid "local-2" 7000 none
      (by decide) (by decide)⟩

/-- **C10.**  A paid-tier tick reads the persisted cached balance back with
`Number(store.get('cachedRemainingMinutes')) || 0`, so an absent or
non-numeric cache coerces to 0 minutes.  On the first tick of such a session
(within the first 30 seconds, before any sync is scheduled) the computed
`remainingSeconds` is 0, the notification says so, and the session
terminates immediately — `endCurrentSession` is invoked and the session
identifier is cleared (with no finalize call, since zero whole minutes
elapsed).  The `logout` handler is one source of such a state: it deletes
the cached balance. -/
theorem C10_missing_cache_immediate_end :
    ∀ (st : AppState) (sid : String) (t0 now : Int) (sync : SyncResult)
      (f : FinalizeResult),
      st.timerSessionId = st.currentSessionId →
      st.currentSessionId = some sid → st.sessionStartTime = some t0 →
      st.windowReadyForIPC = true → st.windowAlive = true →
      resolvedTier st ≠ "free" →
      (st.cachedRemainingMinutes = none ∨
        st.cachedRemainingMinutes = some StoreVal.nonNum) →
      0 ≤ now - t0 → now - t0 < 30000 →
      coerceMinutes st.cachedRemainingMinutes = 0 ∧
      (tick st now sync f).2 =
        [Event.timerUpdate
           { type := "paid", elapsed := 0, remainingSeconds := 0,
             display := "0:00 left" },
         Event.endSessionInvoked] ∧
      (tick st now sync f).1.currentSessionId = none ∧
      (logoutHandler st).cachedRemainingMinutes = none := by
  intro st sid t0 now sync f hts hcs hst hw ha htier hcache hlo hhi
  have hc0 : coerceMinutes st.cachedRemainingMinutes = 0 := by
    rcases hcache with h | h <;> rw [h] <;> rfl
  have hebounds : 0 ≤ (now - t0) / 1000 ∧ (now - t0) / 1000 < 30 := by omega
  refine ⟨hc0, ?_, ?_, ?_⟩
  · rw [tick_active st sid t0 now sync f hts hcs hst hw ha, if_neg htier]
    unfold paidTickBody
    rw [if_neg (by omega)]
    simp only [paidDisplayStep]
    rw [hc0]
    have hmax : max 0 (0 * 60 - (now - t0) / 1000) = 0 := max_eq_left (by omega)
    rw [hmax, if_pos le_rfl]
    rw [endCurrentSession_active st sid t0 now f hcs hst]
    unfold updateSessionMinutes
    rw [if_neg (by omega)]
    simp
    refine ⟨by omega, by decide⟩
  · rw [tick_active st sid t0 now sync f hts hcs hst hw ha, if_neg htier]
    unfold paidTickBody
    rw [if_neg (by omega)]
    simp only [paidDisplayStep]
    rw [hc0]
    have hmax : max 0 (0 * 60 - (now - t0) / 1000) = 0 := max_eq_left (by omega)
    rw [hmax, if_pos le_rfl]
    rw [endCurrentSession_active st sid t0 now f hcs hst]
    simp [transformToDashboardCore_sid]
  · rfl

/-- A paid session whose cache was cleared (fresh login, failed initial
fetch). -/
def egPaidNoCache : AppState :=
  { egPaidSession with cachedRemainingMinutes := none, sessionStartingMinutes := 0 }

/-- **C10, witness.**  `C10_missing_cache_immediate_end` applied to the
cache-less paid session at its first tick, one second after start. -/
theorem C10_witness :
    coerceMinutes egPaidNoCache.cachedRemainingMinutes = 0 ∧
    (tick egPaidNoCache 1000 SyncResult.err FinalizeResult.ok).2 =
      [Event.timerUpdate
         { type := "paid", elapsed := 0, remainingSeconds := 0,
           display := "0:00 left" },
       Event.endSessionInvoked] ∧
    (tick egPaidNoCache 1000 SyncResult.err FinalizeResult.ok).1.currentSessionId = none ∧
    (logoutHandler egPaidNoCache).cachedRemainingMinutes = none :=
  C10_missing_cache_immediate_end egPaidNoCache "sess-paid" 0 1000 SyncResult.err
    FinalizeResult.ok (by decide) (by decide) (by decide) (by decide) (by decide)
    (by decide) (Or.inl (by decide)) (by decide) (by decide)

end ChikuDesktop
